import Mathlib

/-!
Shallow embedding of the client-side xarray readers of the `tiled` repository
(`src/tiled/client/xarray.py`), together with spec-modelled definitions for the
collaborators the readers are built on (the structure schema from
`tiled.containers.xarray`, the leaf array readers from `tiled/client/array.py`,
and the assembly semantics of the external `xarray` containers), and theorems
settling the behavioural claims about slicing, coordinate pairing, column
filtering, indexing, iteration and the deferred/immediate policy split.
-/

namespace Tiled

/-- A Python slice object `slice(start, stop)`, carried opaquely through the
readers: the readers never inspect a slice beyond passing it along, so start
and stop bounds are all the state we track. -/
structure PySlice where
  start : Option Int
  stop : Option Int
deriving DecidableEq

/-- The value `builtins.slice(None, None)`: the select-everything slice used as
the fill value in `ClientDaskDataArrayReader.read`. -/
def PySlice.selectAll : PySlice := ⟨none, none⟩

/-- The argument accepted by a reader's `read` / `__getitem__`: Python `None`,
a single slice object (slice objects are not Iterable), or an iterable of
slices (a tuple or list). The three constructors are exactly the three cases
discriminated by `ClientDaskDataArrayReader.read`'s normalization. -/
inductive SliceArg where
  | noneArg : SliceArg
  | single (s : PySlice) : SliceArg
  | seq (l : List PySlice) : SliceArg
deriving DecidableEq

/-- Query parameters: an insertion-ordered mapping of string keys to string
values, as a Python dict of request parameters. -/
abbrev Params := List (String × String)

/-- Python dict lookup `d[k]` on an ordered association list: the first entry
with the key. -/
def lookupEntry {α : Type} : List (String × α) → String → Option α
  | [], _ => none
  | p :: rest, k => if p.1 = k then some p.2 else lookupEntry rest k

/-- Dict lookup specialized to query parameters. -/
def lookupKey (d : Params) (k : String) : Option String :=
  lookupEntry d k

/-- Python dict key test `k in d` on a `Params` list. -/
def hasKey : Params → String → Bool
  | [], _ => false
  | p :: rest, k => if p.1 = k then true else hasKey rest k

/-- Setting `d[k] = v` on a Python dict kept as an ordered list: an existing
key keeps its position and gets the new value, a new key is appended. -/
def dictInsert (d : Params) (k v : String) : Params :=
  if hasKey d k then
    d.map (fun p => if p.1 = k then (k, v) else p)
  else
    d ++ [(k, v)]

/-- A Python dict literal with a splat, `{base..., **rest}`: start from the
base entries and insert each entry of `rest` in order, later keys overriding
earlier ones. This is the semantics of the code's
`params={"coord": name, **self._params}` and
`params={"variable": name, **self._params}`. -/
def pyMergeDict (base rest : Params) : Params :=
  rest.foldl (fun d p => dictInsert d p.1 p.2) base

/-- Python membership test `name in columns` for a list of column names. -/
def pyIn (name : String) : List String → Bool
  | [] => false
  | c :: cs => if c = name then true else pyIn name cs

/-- Modelled from the spec: `ArrayStructure` from `tiled.containers.xarray`
(not among the source files) — the schema of one leaf array: its shape, its
element type, and its block/chunk layout. -/
structure ArrayStructure where
  shape : List Nat
  dtype : String
  chunks : List (List Nat)
deriving DecidableEq

/-- Modelled from the spec: `VariableStructure` from `tiled.containers.xarray`
(not among the source files) — dimension names, the array schema, and an
attribute mapping (attribute values carried opaquely as strings). The code's
`.macro` indirection is flattened away: the readers only ever use the macro
side of each structure node. -/
structure VariableStructure where
  dims : List String
  data : ArrayStructure
  attrs : List (String × String)
deriving DecidableEq

/-- Modelled from the spec: `DataArrayStructure` from `tiled.containers.xarray`
(not among the source files) — a name, the main variable's schema, and an
ordered mapping of coordinate name to coordinate schema. -/
structure DataArrayStructure where
  name : String
  «variable» : VariableStructure
  coords : List (String × VariableStructure)
deriving DecidableEq

/-- Modelled from the spec: `DatasetStructure` from `tiled.containers.xarray`
(not among the source files) — an ordered mapping of data-variable name to
`DataArrayStructure`, an ordered mapping of shared coordinate name to
`VariableStructure`, and an attribute mapping. -/
structure DatasetStructure where
  data_vars : List (String × DataArrayStructure)
  coords : List (String × VariableStructure)
  attrs : List (String × String)
deriving DecidableEq

/-- One network fetch issued by a leaf array reader: the resource path, the
merged query parameters, the route template, the requested block coordinates
(absent for a whole-array read), and the requested slice. -/
structure Request where
  path : List String
  params : Params
  route : String
  block : Option (List Nat)
  slice : SliceArg
deriving DecidableEq

/-- Modelled from the spec: the raw (unlabeled) array data a leaf array reader
returns — represented symbolically by the array schema it was read from, the
block coordinates (when a single block was requested), and the slice that was
applied. Two leaf reads agree exactly when they fetched the same region of the
same array. -/
structure RawData where
  source : ArrayStructure
  block : Option (List Nat)
  applied : SliceArg
deriving DecidableEq

/-- The construction arguments every reader passes to the leaf array reader it
wraps: `ARRAY_READER(client=..., path=..., metadata=..., params=...,
structure=..., route=...)` with the transport client kept external. -/
structure LeafCtx where
  path : List String
  metadata : Params
  params : Params
  structure_ : ArrayStructure
  route : String
deriving DecidableEq

/-- The leaf array-reader interface: the `ARRAY_READER` class attribute that
the deferred and immediate reader hierarchies substitute. A read returns the
raw data together with the network fetches it performed. -/
structure ArrayReaderImpl where
  read : LeafCtx → SliceArg → RawData × List Request
  readBlock : LeafCtx → List Nat → SliceArg → RawData × List Request

/-- Modelled from the spec: `ClientDaskArrayReader` from `tiled/client/array.py`
(not among the source files) — the deferred, chunk-aware leaf reader. At this
level of abstraction a read resolves to the requested region and one logical
fetch against the reader's route. -/
def clientDaskArrayReader : ArrayReaderImpl where
  read := fun c sl => (⟨c.structure_, none, sl⟩, [⟨c.path, c.params, c.route, none, sl⟩])
  readBlock := fun c b sl =>
    (⟨c.structure_, some b, sl⟩, [⟨c.path, c.params, c.route, some b, sl⟩])

/-- Modelled from the spec: `ClientArrayReader` from `tiled/client/array.py`
(not among the source files) — the immediate (eager) leaf reader; it fetches
the same region as the deferred one, materialized at once. -/
def clientArrayReader : ArrayReaderImpl where
  read := fun c sl => (⟨c.structure_, none, sl⟩, [⟨c.path, c.params, c.route, none, sl⟩])
  readBlock := fun c b sl =>
    (⟨c.structure_, some b, sl⟩, [⟨c.path, c.params, c.route, some b, sl⟩])

/-- An `xarray.Variable` as assembled by the readers: dimension names, raw
data, attributes. -/
structure XVariable where
  dims : List String
  data : RawData
  attrs : List (String × String)
deriving DecidableEq

/-- An `xarray.DataArray` as assembled by the readers: the main variable's
labeled data, named coordinate variables, and a name. -/
structure XDataArray where
  data : XVariable
  coords : List (String × XVariable)
  name : String
deriving DecidableEq

/-- An `xarray.Dataset` as assembled by the readers: named data variables,
named shared coordinates, and dataset attributes. -/
structure XDataset where
  data_vars : List (String × XDataArray)
  coords : List (String × XVariable)
  attrs : List (String × String)
deriving DecidableEq

/-- The state of a `ClientDaskVariableReader` / `ClientVariableReader`:
construction arguments plus the cached `VariableStructure` (macro side). -/
structure VariableReaderState where
  path : List String
  metadata : Params
  params : Params
  structure_ : VariableStructure
  route : String
deriving DecidableEq

/-- Embeds `ClientDaskVariableReader.read_block`: delegate to the wrapped
array reader, built on `structure.data` and this reader's own route. -/
def variableReadBlock (impl : ArrayReaderImpl) (r : VariableReaderState)
    (block : List Nat) (sl : SliceArg) : RawData × List Request :=
  impl.readBlock ⟨r.path, r.metadata, r.params, r.structure_.data, r.route⟩ block sl

/-- Embeds `ClientDaskVariableReader.read`: dims from the structure, data from
the wrapped array reader's `read(slice)`, attrs copied from the structure. -/
def variableRead (impl : ArrayReaderImpl) (r : VariableReaderState)
    (sl : SliceArg) : XVariable × List Request :=
  let res := impl.read ⟨r.path, r.metadata, r.params, r.structure_.data, r.route⟩ sl
  (⟨r.structure_.dims, res.1, r.structure_.attrs⟩, res.2)

/-- Embeds `ClientDaskVariableReader.__getitem__`: `self.read(slice)`. -/
def variableGetItem (impl : ArrayReaderImpl) (r : VariableReaderState)
    (sl : SliceArg) : XVariable × List Request :=
  variableRead impl r sl

/-- Embeds `ClientDaskVariableReader.__len__`:
`self.structure().macro.data.macro.shape[0]`. Indexing an empty shape raises
IndexError in Python, modelled as `none`. -/
def variableLen (r : VariableReaderState) : Option Nat :=
  r.structure_.data.shape.head?

/-- The state of a `ClientDaskDataArrayReader` / `ClientDataArrayReader`:
construction arguments plus the cached `DataArrayStructure` (macro side). -/
structure DataArrayReaderState where
  path : List String
  metadata : Params
  params : Params
  structure_ : DataArrayStructure
  route : String
deriving DecidableEq

/-- The `VARIABLE_READER` the data-array reader builds for its main variable:
same path, metadata and params, `structure=structure.variable`, and this
reader's own route. -/
def mainVariableReader (r : DataArrayReaderState) : VariableReaderState :=
  ⟨r.path, r.metadata, r.params, r.structure_.«variable», r.route⟩

/-- The `VARIABLE_READER` the data-array reader builds for a coordinate:
`params={"coord": name, **self._params}`, the coordinate's own structure, and
this reader's route. -/
def coordVariableReader (r : DataArrayReaderState) (name : String)
    (v : VariableStructure) : VariableReaderState :=
  ⟨r.path, r.metadata, pyMergeDict [("coord", name)] r.params, v, r.route⟩

/-- Embeds the `ClientDaskDataArrayReader.coords` property: a mapping of
coordinate name to its tagged VariableReader, in structure-declared order.
The second component is the list of network fetches the accessor performs —
empty, because the property only constructs readers. -/
def dataArrayCoords (r : DataArrayReaderState) :
    List (String × VariableReaderState) × List Request :=
  (r.structure_.coords.map (fun p => (p.1, coordVariableReader r p.1 p.2)), [])

/-- Embeds `ClientDaskDataArrayReader.read_block`: delegate to the main
variable's reader. -/
def dataArrayReadBlock (impl : ArrayReaderImpl) (r : DataArrayReaderState)
    (block : List Nat) (sl : SliceArg) : RawData × List Request :=
  variableReadBlock impl (mainVariableReader r) block sl

/-- The slice normalization at the top of `ClientDaskDataArrayReader.read`:
`None` becomes the empty tuple, an iterable becomes `tuple(slice)`, and any
other object (a single slice) becomes the one-element tuple `(slice,)`. -/
def normalizeSlice : SliceArg → List PySlice
  | .noneArg => []
  | .seq l => l
  | .single s => [s]

/-- Embeds the coordinate-pairing loop
`for coord_slice, (name, variable) in itertools.zip_longest(slice,
structure.coords.items(), fillvalue=builtins.slice(None, None))`: when the
slice tuple runs out first, the missing coordinate slices are filled with the
select-everything slice; when the coordinate list runs out first, the fill
value occupies the `(name, variable)` position and the tuple unpacking raises
TypeError, modelled as `none`. -/
def pairCoords : List PySlice → List (String × VariableStructure) →
    Option (List (PySlice × String × VariableStructure))
  | [], [] => some []
  | [], (n, v) :: cs => (pairCoords [] cs).map (fun t => (PySlice.selectAll, n, v) :: t)
  | _ :: _, [] => none
  | s :: ss, (_n, v) :: cs => (pairCoords ss cs).map (fun t => (s, _n, v) :: t)

/-- Embeds `ClientDaskDataArrayReader.read`: normalize the slice argument to a
tuple, read the main variable with the full tuple, read each coordinate with
its paired slice entry (tagged `coord=<name>`), and assemble a DataArray with
the structure's declared name. `none` models the TypeError raised by the
pairing loop when the slice tuple is longer than the coordinate list. -/
def dataArrayRead (impl : ArrayReaderImpl) (r : DataArrayReaderState)
    (slArg : SliceArg) : Option (XDataArray × List Request) :=
  let sl := normalizeSlice slArg
  let dres := variableRead impl (mainVariableReader r) (.seq sl)
  match pairCoords sl r.structure_.coords with
  | none => none
  | some pairs =>
    let creads := pairs.map (fun t =>
      let res := variableRead impl (coordVariableReader r t.2.1 t.2.2) (.single t.1)
      ((t.2.1, res.1), res.2))
    some (⟨dres.1, creads.map Prod.fst, r.structure_.name⟩,
      dres.2 ++ (creads.map Prod.snd).flatten)

/-- Embeds `ClientDaskDataArrayReader.__getitem__`: `self.read(slice)`. -/
def dataArrayGetItem (impl : ArrayReaderImpl) (r : DataArrayReaderState)
    (sl : SliceArg) : Option (XDataArray × List Request) :=
  dataArrayRead impl r sl

/-- Embeds `ClientDaskDataArrayReader.__len__`:
`self.structure().macro.variable.macro.data.macro.shape[0]`; IndexError on an
empty shape is modelled as `none`. -/
def dataArrayLen (r : DataArrayReaderState) : Option Nat :=
  r.structure_.«variable».data.shape.head?

/-- The state of a `ClientDaskDatasetReader` / `ClientDatasetReader`:
construction arguments plus the cached `DatasetStructure` (macro side). -/
structure DatasetReaderState where
  path : List String
  metadata : Params
  params : Params
  structure_ : DatasetStructure
  route : String
deriving DecidableEq

/-- The column-filter test of `_build_data_vars` / `_build_coords`:
`if (columns is not None) and (name not in columns): continue`. -/
def skipColumn (columns : Option (List String)) (name : String) : Bool :=
  match columns with
  | none => false
  | some cs => !(pyIn name cs)

/-- The `DATA_ARRAY_READER` the dataset reader builds for a data variable:
`params={"variable": name, **self._params}`. -/
def dataVarReader (r : DatasetReaderState) (name : String)
    (da : DataArrayStructure) : DataArrayReaderState :=
  ⟨r.path, r.metadata, pyMergeDict [("variable", name)] r.params, da, r.route⟩

/-- The `VARIABLE_READER` the dataset reader builds for a shared coordinate:
also tagged `params={"variable": name, **self._params}` (the code tags dataset
coordinates with `variable=`, not `coord=`). -/
def datasetCoordReader (r : DatasetReaderState) (name : String)
    (v : VariableStructure) : VariableReaderState :=
  ⟨r.path, r.metadata, pyMergeDict [("variable", name)] r.params, v, r.route⟩

/-- Embeds `ClientDaskDatasetReader._build_data_vars`: walk the structure's
data variables in declared order, skip names excluded by the column filter,
and build a tagged DataArray reader for each kept name. -/
def buildDataVars (r : DatasetReaderState) (s : DatasetStructure)
    (columns : Option (List String)) : List (String × DataArrayReaderState) :=
  s.data_vars.filterMap (fun p =>
    if skipColumn columns p.1 then none else some (p.1, dataVarReader r p.1 p.2))

/-- Embeds `ClientDaskDatasetReader._build_coords`: walk the structure's
coordinates in declared order, skip names excluded by the column filter, and
build a tagged Variable reader for each kept name. -/
def buildCoords (r : DatasetReaderState) (s : DatasetStructure)
    (columns : Option (List String)) : List (String × VariableReaderState) :=
  s.coords.filterMap (fun p =>
    if skipColumn columns p.1 then none else some (p.1, datasetCoordReader r p.1 p.2))

/-- Embeds the `ClientDaskDatasetReader.data_vars` property:
`self._build_data_vars(structure)` with no column filter. The second component
is the list of fetches the accessor performs — empty, it only constructs
sub-readers. -/
def datasetDataVars (r : DatasetReaderState) :
    List (String × DataArrayReaderState) × List Request :=
  (buildDataVars r r.structure_ none, [])

/-- Embeds the `ClientDaskDatasetReader.coords` property:
`self._build_coords(structure)` with no column filter; performs no fetch. -/
def datasetCoords (r : DatasetReaderState) :
    List (String × VariableReaderState) × List Request :=
  (buildCoords r r.structure_ none, [])

/-- Embeds `ClientDaskDatasetReader.read`: build the filtered data-variable
and coordinate reader mappings, eagerly `read()` every sub-reader, and
assemble a Dataset with the structure's attrs. A data variable's `read()` is
`dataArrayRead` at slice `None`. -/
def datasetRead (impl : ArrayReaderImpl) (r : DatasetReaderState)
    (columns : Option (List String)) : Option (XDataset × List Request) :=
  let s := r.structure_
  let dvs := buildDataVars r s columns
  let cos := buildCoords r s columns
  match dvs.mapM (fun p =>
      (dataArrayRead impl p.2 .noneArg).map (fun q => ((p.1, q.1), q.2))) with
  | none => none
  | some dvReads =>
    let coReads := cos.map (fun p =>
      let res := variableRead impl p.2 .noneArg
      ((p.1, res.1), res.2))
    some (⟨dvReads.map Prod.fst, coReads.map Prod.fst, s.attrs⟩,
      (dvReads.map Prod.snd).flatten ++ (coReads.map Prod.snd).flatten)

/-- Modelled from the spec: extraction of one name from an assembled Dataset
(`xarray.Dataset` indexing, an external collaborator): data variables are
looked up first, then coordinates — a coordinate is returned as a DataArray of
that single variable carrying the coordinate — and an absent name raises
KeyError, modelled as `none`. -/
def XDataset.getVar (ds : XDataset) (k : String) : Option XDataArray :=
  match lookupEntry ds.data_vars k with
  | some da => some da
  | none =>
    match lookupEntry ds.coords k with
    | some v => some ⟨v, [(k, v)], k⟩
    | none => none

/-- The outcome of `ClientDaskDatasetReader.__getitem__` with a string key:
the read itself can fail, the extraction from the assembled Dataset can raise
KeyError, or a DataArray is found. -/
inductive GetResult where
  | readFailed : GetResult
  | keyError (k : String) : GetResult
  | found (da : XDataArray) : GetResult
deriving DecidableEq

/-- Embeds `ClientDaskDatasetReader.__getitem__` with a string key:
`self.read(columns=[columns])[columns]` — a filtered read followed by
extraction from the materialized Dataset. -/
def datasetGetItemStr (impl : ArrayReaderImpl) (r : DatasetReaderState)
    (k : String) : GetResult × List Request :=
  match datasetRead impl r (some [k]) with
  | none => (.readFailed, [])
  | some res =>
    match res.1.getVar k with
    | some da => (.found da, res.2)
    | none => (.keyError k, res.2)

/-- Embeds `ClientDaskDatasetReader.__getitem__` with a non-string key (an
iterable of names): `self.read(columns=columns)`. -/
def datasetGetItemCols (impl : ArrayReaderImpl) (r : DatasetReaderState)
    (cols : List String) : Option (XDataset × List Request) :=
  datasetRead impl r (some cols)

/-- Embeds `ClientDaskDatasetReader.__iter__`:
`yield from self.structure().macro.data_vars` — iterating the data_vars dict
yields its keys in declared order. -/
def datasetIter (r : DatasetReaderState) : List String :=
  r.structure_.data_vars.map Prod.fst

/-! Concrete structures and readers used as evaluation points: the spec's
end-to-end scenario of one data variable `temp` over coordinates `x` (length
10) and `y` (length 5). -/

def xCoordS : VariableStructure := ⟨["x"], ⟨[10], "float64", [[10]]⟩, []⟩

def yCoordS : VariableStructure := ⟨["y"], ⟨[5], "float64", [[5]]⟩, []⟩

def tempVarS : VariableStructure :=
  ⟨["x", "y"], ⟨[10, 5], "float64", [[10], [5]]⟩, [("units", "K")]⟩

def tempS : DataArrayStructure := ⟨"temp", tempVarS, [("x", xCoordS), ("y", yCoordS)]⟩

def dsS : DatasetStructure :=
  ⟨[("temp", tempS)], [("x", xCoordS), ("y", yCoordS)], [("title", "demo")]⟩

def vR0 : VariableReaderState := ⟨["node"], [], [], xCoordS, "/variable/block"⟩

def daR0 : DataArrayReaderState := ⟨["node"], [], [], tempS, "/data_array/block"⟩

def dsR0 : DatasetReaderState := ⟨["node"], [], [], dsS, "/dataset/block"⟩

/-- A data array whose structure declares a single coordinate. -/
def daOneCoord : DataArrayReaderState :=
  ⟨["node"], [], [], ⟨"t", tempVarS, [("x", xCoordS)]⟩, "/data_array/block"⟩

/-- A data array whose structure declares no coordinate at all. -/
def daNoCoord : DataArrayReaderState :=
  ⟨["node"], [], [], ⟨"t", tempVarS, []⟩, "/data_array/block"⟩

/-! Helper lemmas. -/

theorem pyIn_iff (n : String) : ∀ cs : List String, pyIn n cs = true ↔ n ∈ cs
  | [] => by simp [pyIn]
  | c :: cs => by
    rw [pyIn]
    by_cases h : c = n
    · simp [h]
    · have hn : ¬n = c := fun e => h e.symm
      simp [h, pyIn_iff n cs, hn]

theorem lookupEntry_eq_none_iff {α : Type} (k : String) :
    ∀ l : List (String × α), lookupEntry l k = none ↔ ∀ p ∈ l, p.1 ≠ k
  | [] => by simp [lookupEntry]
  | p :: l => by
    rw [lookupEntry]
    by_cases h : p.1 = k
    · simp [h]
    · simp [h, lookupEntry_eq_none_iff k l]

theorem lookupEntry_isSome_of_mem {α : Type} (k : String) (v : α) :
    ∀ l : List (String × α), (k, v) ∈ l → ∃ w, lookupEntry l k = some w
  | p :: l, h => by
    rw [lookupEntry]
    rcases List.mem_cons.mp h with h' | h'
    · simp [← h']
    · by_cases hp : p.1 = k
      · simp [hp]
      · simpa [hp] using lookupEntry_isSome_of_mem k v l h'

theorem lookupEntry_map_replace {k v k' : String} (h : k ≠ k') :
    ∀ d : Params,
      lookupEntry (d.map (fun p => if p.1 = k then (k, v) else p)) k' = lookupEntry d k'
  | [] => rfl
  | p :: d => by
    by_cases hp : p.1 = k
    · simp [lookupEntry, hp, h, lookupEntry_map_replace h d]
    · simp [lookupEntry, hp, lookupEntry_map_replace h d]

theorem lookupEntry_append_single {k v k' : String} (h : k ≠ k') :
    ∀ d : Params, lookupEntry (d ++ [(k, v)]) k' = lookupEntry d k'
  | [] => by simp [lookupEntry, h]
  | p :: d => by
    by_cases hp : p.1 = k'
    · simp [lookupEntry, hp]
    · simp [lookupEntry, hp, lookupEntry_append_single h d]

theorem dictInsert_lookup_ne (d : Params) {k : String} (v : String) {k' : String}
    (h : k ≠ k') : lookupKey (dictInsert d k v) k' = lookupKey d k' := by
  unfold dictInsert lookupKey
  by_cases hd : hasKey d k
  · simp [hd, lookupEntry_map_replace h d]
  · simp [hd, lookupEntry_append_single h d]

theorem pyMergeDict_lookup_keep {k : String} :
    ∀ upd base : Params, (∀ p ∈ upd, p.1 ≠ k) →
      lookupKey (pyMergeDict base upd) k = lookupKey base k
  | [], base, _ => rfl
  | p :: upd, base, h => by
    rw [pyMergeDict, List.foldl_cons]
    have step := pyMergeDict_lookup_keep (k := k) upd (dictInsert base p.1 p.2)
      (fun q hq => h q (List.mem_cons_of_mem p hq))
    rw [pyMergeDict] at step
    rw [step, dictInsert_lookup_ne base p.2 (h p (List.mem_cons_self p upd))]

/-- The explicit pairing produced by the zip-longest loop when the slice tuple
is no longer than the coordinate list: positional entries first, the
select-everything fill for the coordinates past the end of the tuple. -/
def fillPairs : List PySlice → List (String × VariableStructure) →
    List (PySlice × String × VariableStructure)
  | _, [] => []
  | [], p :: cs => (PySlice.selectAll, p.1, p.2) :: fillPairs [] cs
  | s :: ss, p :: cs => (s, p.1, p.2) :: fillPairs ss cs

theorem pairCoords_eq_fill :
    ∀ (sl : List PySlice) (cs : List (String × VariableStructure)),
      sl.length ≤ cs.length → pairCoords sl cs = some (fillPairs sl cs)
  | [], [], _ => rfl
  | [], p :: cs, _ => by
    obtain ⟨n, v⟩ := p
    rw [pairCoords, fillPairs, pairCoords_eq_fill [] cs (Nat.zero_le _)]
    rfl
  | s :: ss, p :: cs, h => by
    obtain ⟨n, v⟩ := p
    rw [pairCoords, fillPairs,
      pairCoords_eq_fill ss cs (Nat.le_of_succ_le_succ h)]
    rfl

theorem pairCoords_none :
    ∀ (sl : List PySlice) (cs : List (String × VariableStructure)),
      cs.length < sl.length → pairCoords sl cs = none
  | s :: ss, [], _ => rfl
  | s :: ss, p :: cs, h => by
    obtain ⟨n, v⟩ := p
    rw [pairCoords, pairCoords_none ss cs (Nat.lt_of_succ_lt_succ h)]
    rfl

theorem fillPairs_names :
    ∀ (sl : List PySlice) (cs : List (String × VariableStructure)),
      (fillPairs sl cs).map (fun t => (t.2.1, t.2.2)) = cs := by
  intro sl cs
  induction cs generalizing sl with
  | nil => cases sl <;> rfl
  | cons p cs ih =>
    cases sl with
    | nil => simp [fillPairs, ih []]
    | cons s ss => simp [fillPairs, ih ss]

theorem fillPairs_slices :
    ∀ (sl : List PySlice) (cs : List (String × VariableStructure)),
      sl.length ≤ cs.length →
      (fillPairs sl cs).map Prod.fst =
        sl ++ List.replicate (cs.length - sl.length) PySlice.selectAll
  | [], [], _ => rfl
  | [], p :: cs, _ => by
    rw [fillPairs, List.map_cons, fillPairs_slices [] cs (Nat.zero_le _)]
    simp [List.replicate_succ]
  | s :: ss, p :: cs, h => by
    rw [fillPairs, List.map_cons, fillPairs_slices ss cs (Nat.le_of_succ_le_succ h)]
    simp [Nat.succ_sub_succ]

/-- Generic shape of `_build_data_vars` / `_build_coords`: a filterMap of the
structure entries through the column-filter test. Members of the result always
carry a name admitted by the filter. -/
theorem build_mem_cols {α β : Type} (g : String × α → β) (cols : List String)
    (l : List (String × α)) (x : String × β)
    (hx : x ∈ l.filterMap
      (fun p => if skipColumn (some cols) p.1 then none else some (p.1, g p))) :
    x.1 ∈ cols := by
  rcases List.mem_filterMap.mp hx with ⟨a, _, ha⟩
  by_cases hs : skipColumn (some cols) a.1
  · simp [hs] at ha
  · simp [hs] at ha
    have : pyIn a.1 cols = true := by
      revert hs
      simp [skipColumn]
    rw [← ha]
    exact (pyIn_iff a.1 cols).mp this

/-- With no column filter the build step keeps every structure entry. -/
theorem build_none {α β : Type} (g : String × α → β) (l : List (String × α)) :
    l.filterMap (fun p => if skipColumn none p.1 then none else some (p.1, g p)) =
      l.map (fun p => (p.1, g p)) := by
  induction l with
  | nil => rfl
  | cons p l ih =>
    rw [List.filterMap_cons]
    have hs : skipColumn none p.1 = false := rfl
    rw [hs]
    simp [ih]

/-- A one-name filter whose name matches no structure entry keeps nothing. -/
theorem build_absent_nil {α β : Type} (g : String × α → β) (k : String) :
    ∀ l : List (String × α), (∀ p ∈ l, p.1 ≠ k) →
      l.filterMap (fun p => if skipColumn (some [k]) p.1 then none else some (p.1, g p)) = []
  | [], _ => rfl
  | p :: l, h => by
    rw [List.filterMap_cons]
    have hk : ¬k = p.1 := fun e => h p (List.mem_cons_self p l) e.symm
    have hs : skipColumn (some [k]) p.1 = true := by
      simp [skipColumn, pyIn, hk]
    simp [hs, build_absent_nil g k l (fun q hq => h q (List.mem_cons_of_mem p hq))]

/-- A structure entry whose name is in the filter survives the build step. -/
theorem build_mem_of_mem {α β : Type} (g : String × α → β) (cols : List String)
    (l : List (String × α)) (p : String × α) (hp : p ∈ l) (hc : pyIn p.1 cols = true) :
    (p.1, g p) ∈ l.filterMap
      (fun p => if skipColumn (some cols) p.1 then none else some (p.1, g p)) := by
  refine List.mem_filterMap.mpr ⟨p, hp, ?_⟩
  simp [skipColumn, hc]

/-- The closed form of a data-array reader's `read()` with no slice argument:
the main variable read with the empty tuple, every coordinate read with the
select-everything slice. -/
def dataArrayReadFull (impl : ArrayReaderImpl) (r : DataArrayReaderState) :
    XDataArray × List Request :=
  (⟨(variableRead impl (mainVariableReader r) (.seq [])).1,
    r.structure_.coords.map (fun p =>
      (p.1, (variableRead impl (coordVariableReader r p.1 p.2) (.single PySlice.selectAll)).1)),
    r.structure_.name⟩,
   (variableRead impl (mainVariableReader r) (.seq [])).2 ++
     (r.structure_.coords.map (fun p =>
       (variableRead impl (coordVariableReader r p.1 p.2) (.single PySlice.selectAll)).2)).flatten)

theorem pairCoords_nil_left (cs : List (String × VariableStructure)) :
    pairCoords [] cs = some (cs.map (fun p => (PySlice.selectAll, p.1, p.2))) := by
  rw [pairCoords_eq_fill [] cs (Nat.zero_le _)]
  congr 1
  induction cs with
  | nil => rfl
  | cons p cs ih => rw [fillPairs, List.map_cons, ih]

theorem dataArrayRead_noneArg (impl : ArrayReaderImpl) (r : DataArrayReaderState) :
    dataArrayRead impl r .noneArg = some (dataArrayReadFull impl r) := by
  rw [dataArrayRead]
  simp only [normalizeSlice, pairCoords_nil_left, List.map_map]
  rfl

theorem mapM_dataArrayReadNone (impl : ArrayReaderImpl) :
    ∀ l : List (String × DataArrayReaderState),
      l.mapM (fun p => (dataArrayRead impl p.2 .noneArg).map (fun q => ((p.1, q.1), q.2))) =
        some (l.map (fun p =>
          ((p.1, (dataArrayReadFull impl p.2).1), (dataArrayReadFull impl p.2).2)))
  | [] => rfl
  | p :: l => by
    rw [List.mapM_cons, dataArrayRead_noneArg, mapM_dataArrayReadNone impl l]
    rfl

/-- The closed form of `ClientDaskDatasetReader.read`: it always succeeds, and
assembles the reads of the filtered data variables and coordinates together
with the structure's attrs. -/
theorem datasetRead_eq (impl : ArrayReaderImpl) (r : DatasetReaderState)
    (cols : Option (List String)) :
    datasetRead impl r cols = some
      (⟨(buildDataVars r r.structure_ cols).map (fun p => (p.1, (dataArrayReadFull impl p.2).1)),
        (buildCoords r r.structure_ cols).map (fun p => (p.1, (variableRead impl p.2 .noneArg).1)),
        r.structure_.attrs⟩,
       ((buildDataVars r r.structure_ cols).map (fun p => (dataArrayReadFull impl p.2).2)).flatten ++
         ((buildCoords r r.structure_ cols).map (fun p => (variableRead impl p.2 .noneArg).2)).flatten) := by
  rw [datasetRead]
  simp only [mapM_dataArrayReadNone, List.map_map]
  rfl

/-- A one-empty-list filter keeps nothing. -/
theorem build_empty_nil {α β : Type} (g : String × α → β) (l : List (String × α)) :
    l.filterMap (fun p => if skipColumn (some []) p.1 then none else some (p.1, g p)) = [] := by
  induction l with
  | nil => rfl
  | cons p l ih =>
    rw [List.filterMap_cons]
    have hs : skipColumn (some []) p.1 = true := rfl
    rw [hs]
    simpa using ih

/-- The names surviving an unfiltered build step are the structure's names. -/
theorem build_keys_none {α β : Type} (g : String × α → β) (l : List (String × α)) :
    (l.filterMap (fun p => if skipColumn none p.1 then none else some (p.1, g p))).map
      Prod.fst = l.map Prod.fst := by
  rw [build_none g l, List.map_map]
  rfl

/-- C1: the slice argument of `DataArrayReader.read` is normalized to a tuple
(`None` → empty tuple, single slice → 1-tuple, sequence → tuple of its
elements); the full tuple goes to the main Variable's read; each coordinate is
paired in declared order with the corresponding tuple entry, positions past the
end of the tuple defaulting to select-everything; and the result is a DataArray
of the sliced data and sliced coordinates carrying the structure's name. This
holds whenever the normalized tuple is no longer than the coordinate list (a
longer tuple makes `read` raise instead, see the counterexample). -/
theorem c1_read_normalizes_and_pairs (impl : ArrayReaderImpl) (r : DataArrayReaderState)
    (slArg : SliceArg)
    (h : (normalizeSlice slArg).length ≤ r.structure_.coords.length) :
    normalizeSlice SliceArg.noneArg = [] ∧
    (∀ s, normalizeSlice (SliceArg.single s) = [s]) ∧
    (∀ l, normalizeSlice (SliceArg.seq l) = l) ∧
    (∃ reqs,
      dataArrayRead impl r slArg = some
        (⟨(variableRead impl (mainVariableReader r) (.seq (normalizeSlice slArg))).1,
          (fillPairs (normalizeSlice slArg) r.structure_.coords).map (fun t =>
            (t.2.1, (variableRead impl (coordVariableReader r t.2.1 t.2.2) (.single t.1)).1)),
          r.structure_.name⟩, reqs)) ∧
    (fillPairs (normalizeSlice slArg) r.structure_.coords).map (fun t => (t.2.1, t.2.2)) =
      r.structure_.coords ∧
    (fillPairs (normalizeSlice slArg) r.structure_.coords).map Prod.fst =
      normalizeSlice slArg ++ List.replicate
        (r.structure_.coords.length - (normalizeSlice slArg).length) PySlice.selectAll := by
  have hex : dataArrayRead impl r slArg = some
      (⟨(variableRead impl (mainVariableReader r) (.seq (normalizeSlice slArg))).1,
        (fillPairs (normalizeSlice slArg) r.structure_.coords).map (fun t =>
          (t.2.1, (variableRead impl (coordVariableReader r t.2.1 t.2.2) (.single t.1)).1)),
        r.structure_.name⟩,
       (variableRead impl (mainVariableReader r) (.seq (normalizeSlice slArg))).2 ++
         ((fillPairs (normalizeSlice slArg) r.structure_.coords).map (fun t =>
           (variableRead impl (coordVariableReader r t.2.1 t.2.2) (.single t.1)).2)).flatten) := by
    rw [dataArrayRead, pairCoords_eq_fill _ _ h]
    simp only [List.map_map]
    rfl
  exact ⟨rfl, fun _ => rfl, fun _ => rfl, ⟨_, hex⟩, fillPairs_names _ _,
    fillPairs_slices _ _ h⟩

/-- C1 counterexample: with one declared coordinate and a two-entry slice
tuple, `read` raises a TypeError (unpacking the zip-longest fill value as
`(name, variable)`) instead of returning a DataArray, so the claim's
"for every call" fails. -/
theorem c1_counterexample :
    dataArrayRead clientDaskArrayReader daOneCoord
      (.seq [PySlice.selectAll, PySlice.selectAll]) = none := rfl

/-- C1 witness. -/
theorem c1_read_witness :
    (normalizeSlice (.seq [PySlice.selectAll])).length ≤ daR0.structure_.coords.length ∧
    (∃ reqs,
      dataArrayRead clientDaskArrayReader daR0 (.seq [PySlice.selectAll]) = some
        (⟨(variableRead clientDaskArrayReader (mainVariableReader daR0)
             (.seq (normalizeSlice (.seq [PySlice.selectAll])))).1,
          (fillPairs (normalizeSlice (.seq [PySlice.selectAll])) daR0.structure_.coords).map
            (fun t => (t.2.1, (variableRead clientDaskArrayReader
              (coordVariableReader daR0 t.2.1 t.2.2) (.single t.1)).1)),
          daR0.structure_.name⟩, reqs)) :=
  ⟨by decide,
   (c1_read_normalizes_and_pairs clientDaskArrayReader daR0 (.seq [PySlice.selectAll])
     (by decide)).2.2.2.1⟩

/-- C2: a slice tuple shorter than the coordinate count is not an error —
`read` succeeds and the missing coordinate positions are filled with the
select-everything slice — but a slice tuple longer than the coordinate count
makes `read` fail, so a count mismatch is not error-free in general. -/
theorem c2_mismatch_behaviour (impl : ArrayReaderImpl) (r : DataArrayReaderState)
    (sl : List PySlice) :
    (sl.length ≤ r.structure_.coords.length →
      (dataArrayRead impl r (.seq sl)).isSome = true ∧
      pairCoords sl r.structure_.coords = some (fillPairs sl r.structure_.coords) ∧
      (fillPairs sl r.structure_.coords).map Prod.fst =
        sl ++ List.replicate (r.structure_.coords.length - sl.length) PySlice.selectAll) ∧
    (r.structure_.coords.length < sl.length →
      dataArrayRead impl r (.seq sl) = none) := by
  constructor
  · intro h
    refine ⟨?_, pairCoords_eq_fill _ _ h, fillPairs_slices _ _ h⟩
    rw [dataArrayRead]
    simp only [normalizeSlice]
    rw [pairCoords_eq_fill _ _ h]
    rfl
  · intro h
    rw [dataArrayRead]
    simp only [normalizeSlice]
    rw [pairCoords_none _ _ h]

/-- C2 counterexample: with no declared coordinate, any nonempty slice tuple
(here length 1, a count mismatch) makes `read` fail instead of being ignored,
refuting "a slice/coordinate count mismatch is never treated as an error". -/
theorem c2_counterexample :
    dataArrayRead clientDaskArrayReader daNoCoord (.seq [PySlice.selectAll]) = none ∧
    (normalizeSlice (.seq [PySlice.selectAll])).length ≠
      daNoCoord.structure_.coords.length :=
  ⟨rfl, by decide⟩

/-- C2 witness. -/
theorem c2_mismatch_witness :
    (dataArrayRead clientDaskArrayReader daR0 (.seq [PySlice.selectAll])).isSome = true ∧
    dataArrayRead clientDaskArrayReader daR0
      (.seq [PySlice.selectAll, PySlice.selectAll, PySlice.selectAll]) = none :=
  ⟨((c2_mismatch_behaviour clientDaskArrayReader daR0 [PySlice.selectAll]).1 (by decide)).1,
   (c2_mismatch_behaviour clientDaskArrayReader daR0
     [PySlice.selectAll, PySlice.selectAll, PySlice.selectAll]).2 (by decide)⟩

/-- C7: for rank at least 1, `length()` of a Variable reader and of a
DataArray reader is the first entry of the structure's shape; for rank 0 it
fails (IndexError, modelled as `none`). -/
theorem c7_length_first_dimension (vr : VariableReaderState) (dr : DataArrayReaderState) :
    (∀ n t, vr.structure_.data.shape = n :: t → variableLen vr = some n) ∧
    (vr.structure_.data.shape = [] → variableLen vr = none) ∧
    (∀ n t, dr.structure_.«variable».data.shape = n :: t → dataArrayLen dr = some n) ∧
    (dr.structure_.«variable».data.shape = [] → dataArrayLen dr = none) := by
  refine ⟨fun n t h => ?_, fun h => ?_, fun n t h => ?_, fun h => ?_⟩ <;>
    simp [variableLen, dataArrayLen, h]

/-- C7 witness. -/
theorem c7_length_witness :
    variableLen vR0 = some 10 ∧ dataArrayLen daR0 = some 10 :=
  ⟨(c7_length_first_dimension vR0 daR0).1 10 [] rfl,
   (c7_length_first_dimension vR0 daR0).2.2.1 10 [5] rfl⟩

/-- C8: the `coords` accessor of a DataArray reader performs no fetch, maps
every declared coordinate name in order, and tags each coordinate's
VariableReader with a `coord=<name>` request parameter (provided the reader's
own parameters do not already bind `coord`, which the dict-splat would let
override the tag). -/
theorem c8_coords_tagged (r : DataArrayReaderState)
    (h : lookupKey r.params "coord" = none) :
    (dataArrayCoords r).2 = [] ∧
    (dataArrayCoords r).1.map Prod.fst = r.structure_.coords.map Prod.fst ∧
    ∀ p ∈ (dataArrayCoords r).1, lookupKey p.2.params "coord" = some p.1 := by
  refine ⟨rfl, ?_, ?_⟩
  · rw [dataArrayCoords]
    simp only [List.map_map]
    rfl
  · intro p hp
    rw [dataArrayCoords] at hp
    rcases List.mem_map.mp hp with ⟨q, _, hpq⟩
    have hnone : ∀ x ∈ r.params, x.1 ≠ "coord" :=
      (lookupEntry_eq_none_iff "coord" r.params).mp h
    rw [← hpq]
    show lookupKey (pyMergeDict [("coord", q.1)] r.params) "coord" = some q.1
    rw [pyMergeDict_lookup_keep r.params [("coord", q.1)] hnone]
    rfl

/-- A DataArray reader whose own params carry a tag but no `coord` key. -/
def daRp : DataArrayReaderState := ⟨["node"], [], [("q", "1")], tempS, "/data_array/block"⟩

/-- C8 witness. -/
theorem c8_coords_witness :
    lookupKey daRp.params "coord" = none ∧
    ((dataArrayCoords daRp).2 = [] ∧
      (dataArrayCoords daRp).1.map Prod.fst = daRp.structure_.coords.map Prod.fst ∧
      ∀ p ∈ (dataArrayCoords daRp).1, lookupKey p.2.params "coord" = some p.1) :=
  ⟨rfl, c8_coords_tagged daRp rfl⟩

/-- C9: the deferred and immediate reader hierarchies differ only in the leaf
array-reader implementation substituted at the bottom; every composed
operation is the same function of that leaf, so leaves returning the same raw
data give equal labeled results for read, read_block, indexing and the
dataset operations (length and iteration do not consult the leaf at all). -/
theorem c9_policy_substitution (iA iB : ArrayReaderImpl)
    (h1 : ∀ c sl, iA.read c sl = iB.read c sl)
    (h2 : ∀ c b sl, iA.readBlock c b sl = iB.readBlock c b sl) :
    (∀ vr sl, variableRead iA vr sl = variableRead iB vr sl) ∧
    (∀ vr b sl, variableReadBlock iA vr b sl = variableReadBlock iB vr b sl) ∧
    (∀ vr sl, variableGetItem iA vr sl = variableGetItem iB vr sl) ∧
    (∀ dr sl, dataArrayRead iA dr sl = dataArrayRead iB dr sl) ∧
    (∀ dr b sl, dataArrayReadBlock iA dr b sl = dataArrayReadBlock iB dr b sl) ∧
    (∀ dr sl, dataArrayGetItem iA dr sl = dataArrayGetItem iB dr sl) ∧
    (∀ dsr cols, datasetRead iA dsr cols = datasetRead iB dsr cols) ∧
    (∀ dsr k, datasetGetItemStr iA dsr k = datasetGetItemStr iB dsr k) ∧
    (∀ dsr cols, datasetGetItemCols iA dsr cols = datasetGetItemCols iB dsr cols) := by
  have hAB : iA = iB := by
    obtain ⟨rA, bA⟩ := iA
    obtain ⟨rB, bB⟩ := iB
    simp only [ArrayReaderImpl.mk.injEq]
    exact ⟨funext fun c => funext fun sl => h1 c sl,
      funext fun c => funext fun b => funext fun sl => h2 c b sl⟩
  subst hAB
  exact ⟨fun _ _ => rfl, fun _ _ _ => rfl, fun _ _ => rfl, fun _ _ => rfl,
    fun _ _ _ => rfl, fun _ _ => rfl, fun _ _ => rfl, fun _ _ => rfl, fun _ _ => rfl⟩

/-- C9 witness: the two modelled leaf implementations agree, hence so do the
composed reads. -/
theorem c9_policy_witness :
    variableRead clientDaskArrayReader vR0 .noneArg =
      variableRead clientArrayReader vR0 .noneArg ∧
    datasetRead clientDaskArrayReader dsR0 (some ["temp"]) =
      datasetRead clientArrayReader dsR0 (some ["temp"]) := by
  have h := c9_policy_substitution clientDaskArrayReader clientArrayReader
    (fun _ _ => rfl) (fun _ _ _ => rfl)
  exact ⟨h.1 vR0 .noneArg, h.2.2.2.2.2.2.1 dsR0 (some ["temp"])⟩

/-- C3: iterating a Dataset reader yields exactly the structure's data-variable
names in declared order; a coordinate name is never yielded, even though it is
a valid indexing key of the reader (string indexing on it succeeds). -/
theorem c3_iteration_data_vars (impl : ArrayReaderImpl) (r : DatasetReaderState)
    (c : String) (v : VariableStructure)
    (hc : (c, v) ∈ r.structure_.coords)
    (hnv : c ∉ r.structure_.data_vars.map Prod.fst) :
    datasetIter r = r.structure_.data_vars.map Prod.fst ∧
    c ∉ datasetIter r ∧
    ∃ da reqs, datasetGetItemStr impl r c = (.found da, reqs) := by
  refine ⟨rfl, hnv, ?_⟩
  have hdv : buildDataVars r r.structure_ (some [c]) = [] := by
    apply build_absent_nil
    intro p hp e
    exact hnv (e ▸ List.mem_map_of_mem Prod.fst hp)
  have hco : (c, datasetCoordReader r c v) ∈ buildCoords r r.structure_ (some [c]) := by
    have hin : pyIn (c, v).1 [c] = true := by simp [pyIn]
    exact build_mem_of_mem (fun p => datasetCoordReader r p.1 p.2) [c]
      r.structure_.coords (c, v) hc hin
  have hmem : (c, (variableRead impl (datasetCoordReader r c v) .noneArg).1) ∈
      (buildCoords r r.structure_ (some [c])).map
        (fun p => (p.1, (variableRead impl p.2 .noneArg).1)) :=
    List.mem_map.mpr ⟨(c, datasetCoordReader r c v), hco, rfl⟩
  obtain ⟨w, hw⟩ := lookupEntry_isSome_of_mem c _ _ hmem
  refine ⟨⟨w, [(c, w)], c⟩,
    ((buildCoords r r.structure_ (some [c])).map
      (fun p => (variableRead impl p.2 .noneArg).2)).flatten, ?_⟩
  simp [datasetGetItemStr, datasetRead_eq, hdv, XDataset.getVar, lookupEntry, hw]

/-- C3 witness. -/
theorem c3_iteration_witness :
    ("x", xCoordS) ∈ dsR0.structure_.coords ∧
    "x" ∉ dsR0.structure_.data_vars.map Prod.fst ∧
    (datasetIter dsR0 = dsR0.structure_.data_vars.map Prod.fst ∧
      "x" ∉ datasetIter dsR0 ∧
      ∃ da reqs, datasetGetItemStr clientDaskArrayReader dsR0 "x" = (.found da, reqs)) :=
  ⟨by decide, by decide,
   c3_iteration_data_vars clientDaskArrayReader dsR0 "x" xCoordS (by decide) (by decide)⟩

/-- C4: Dataset-reader indexing is type-polymorphic by key type — a string key
produces the result of `read(columns=[key])` followed by extraction of that
key from the assembled Dataset, and a non-string key (a list of names)
produces `read(columns=key)`. -/
theorem c4_getitem_type_polymorphic (impl : ArrayReaderImpl) (r : DatasetReaderState)
    (k : String) (cols : List String) :
    (∀ ds reqs, datasetRead impl r (some [k]) = some (ds, reqs) →
      datasetGetItemStr impl r k =
        ((ds.getVar k).elim (GetResult.keyError k) GetResult.found, reqs)) ∧
    datasetGetItemCols impl r cols = datasetRead impl r (some cols) := by
  refine ⟨?_, rfl⟩
  intro ds reqs h
  rw [datasetGetItemStr, h]
  cases hv : ds.getVar k <;> simp [hv]

/-- C4 witness. -/
theorem c4_getitem_witness :
    (∃ ds reqs, datasetRead clientDaskArrayReader dsR0 (some ["temp"]) = some (ds, reqs) ∧
      datasetGetItemStr clientDaskArrayReader dsR0 "temp" =
        ((ds.getVar "temp").elim (GetResult.keyError "temp") GetResult.found, reqs)) ∧
    datasetGetItemCols clientDaskArrayReader dsR0 ["temp"] =
      datasetRead clientDaskArrayReader dsR0 (some ["temp"]) := by
  refine ⟨⟨_, _, rfl, ?_⟩,
    (c4_getitem_type_polymorphic clientDaskArrayReader dsR0 "temp" ["temp"]).2⟩
  exact (c4_getitem_type_polymorphic clientDaskArrayReader dsR0 "temp" ["temp"]).1 _ _ rfl

/-- C5 (amended): a requested name absent from the structure is silently
skipped while constructing sub-readers — `read(columns=[name])` succeeds with
the name simply omitted (empty Dataset here), and string indexing fails only
later, with a KeyError at extraction from the assembled Dataset, not with a
lookup error at sub-reader construction. -/
theorem c5_absent_name_silently_skipped (impl : ArrayReaderImpl) (r : DatasetReaderState)
    (k : String)
    (h1 : ∀ p ∈ r.structure_.data_vars, p.1 ≠ k)
    (h2 : ∀ p ∈ r.structure_.coords, p.1 ≠ k) :
    datasetRead impl r (some [k]) = some (⟨[], [], r.structure_.attrs⟩, []) ∧
    datasetGetItemStr impl r k = (.keyError k, []) := by
  have hdv : buildDataVars r r.structure_ (some [k]) = [] := build_absent_nil _ k _ h1
  have hco : buildCoords r r.structure_ (some [k]) = [] := build_absent_nil _ k _ h2
  constructor
  · rw [datasetRead_eq, hdv, hco]
    rfl
  · simp only [datasetGetItemStr, datasetRead_eq, hdv, hco, List.map_nil,
      XDataset.getVar, lookupEntry]
    rfl

/-- C5 counterexample: requesting the absent name "bogus" does not fail at all
in `read` — it returns a Dataset with no variables and no coordinates —
refuting "fails with a lookup/not-found error when constructing the
corresponding sub-reader". -/
theorem c5_counterexample :
    datasetRead clientDaskArrayReader dsR0 (some ["bogus"]) =
      some (⟨[], [], [("title", "demo")]⟩, []) := rfl

/-- C5 witness. -/
theorem c5_absent_name_witness :
    (∀ p ∈ dsR0.structure_.data_vars, p.1 ≠ "missing") ∧
    (∀ p ∈ dsR0.structure_.coords, p.1 ≠ "missing") ∧
    (datasetRead clientDaskArrayReader dsR0 (some ["missing"]) =
        some (⟨[], [], dsR0.structure_.attrs⟩, []) ∧
      datasetGetItemStr clientDaskArrayReader dsR0 "missing" = (.keyError "missing", [])) :=
  ⟨by decide, by decide,
   c5_absent_name_silently_skipped clientDaskArrayReader dsR0 "missing"
     (by decide) (by decide)⟩

/-- C6: a column filter passed to `read` prevents any data-variable or
coordinate sub-reader from being instantiated for a name outside the filter
(and the assembled Dataset carries no such name), while the `data_vars` and
`coords` accessors expose the unfiltered name mappings and perform no fetch. -/
theorem c6_column_filter (impl : ArrayReaderImpl) (r : DatasetReaderState)
    (cols : List String) (name : String) (h : name ∉ cols) :
    name ∉ (buildDataVars r r.structure_ (some cols)).map Prod.fst ∧
    name ∉ (buildCoords r r.structure_ (some cols)).map Prod.fst ∧
    (∀ ds reqs, datasetRead impl r (some cols) = some (ds, reqs) →
      name ∉ ds.data_vars.map Prod.fst ∧ name ∉ ds.coords.map Prod.fst) ∧
    (datasetDataVars r).1.map Prod.fst = r.structure_.data_vars.map Prod.fst ∧
    (datasetCoords r).1.map Prod.fst = r.structure_.coords.map Prod.fst ∧
    (datasetDataVars r).2 = [] ∧ (datasetCoords r).2 = [] := by
  have hdv : name ∉ (buildDataVars r r.structure_ (some cols)).map Prod.fst := by
    intro hmem
    rcases List.mem_map.mp hmem with ⟨x, hx, he⟩
    exact h (he ▸ build_mem_cols _ cols _ x hx)
  have hco : name ∉ (buildCoords r r.structure_ (some cols)).map Prod.fst := by
    intro hmem
    rcases List.mem_map.mp hmem with ⟨x, hx, he⟩
    exact h (he ▸ build_mem_cols _ cols _ x hx)
  refine ⟨hdv, hco, ?_, ?_, ?_, rfl, rfl⟩
  · intro ds reqs hread
    rw [datasetRead_eq] at hread
    obtain ⟨hds, -⟩ := Prod.mk.injEq .. ▸ Option.some.inj hread
    subst hds
    constructor
    · intro hmem
      rw [List.map_map] at hmem
      exact hdv hmem
    · intro hmem
      rw [List.map_map] at hmem
      exact hco hmem
  · show (buildDataVars r r.structure_ none).map Prod.fst = _
    exact build_keys_none _ _
  · show (buildCoords r r.structure_ none).map Prod.fst = _
    exact build_keys_none _ _

/-- C6 witness. -/
theorem c6_column_filter_witness :
    "x" ∉ ["temp"] ∧
    ("x" ∉ (buildDataVars dsR0 dsR0.structure_ (some ["temp"])).map Prod.fst ∧
      "x" ∉ (buildCoords dsR0 dsR0.structure_ (some ["temp"])).map Prod.fst ∧
      (∀ ds reqs, datasetRead clientDaskArrayReader dsR0 (some ["temp"]) = some (ds, reqs) →
        "x" ∉ ds.data_vars.map Prod.fst ∧ "x" ∉ ds.coords.map Prod.fst) ∧
      (datasetDataVars dsR0).1.map Prod.fst = dsR0.structure_.data_vars.map Prod.fst ∧
      (datasetCoords dsR0).1.map Prod.fst = dsR0.structure_.coords.map Prod.fst ∧
      (datasetDataVars dsR0).2 = [] ∧ (datasetCoords dsR0).2 = []) :=
  ⟨by decide, c6_column_filter clientDaskArrayReader dsR0 ["temp"] "x" (by decide)⟩

/-- C10: `read` distinguishes `columns=None` from `columns=[]` — with the
empty list every data variable and coordinate is filtered out and the result
is a Dataset with no variables and no coordinates but the structure's attrs,
while with `None` no filtering occurs and every data variable and coordinate
is read. -/
theorem c10_columns_none_vs_empty (impl : ArrayReaderImpl) (r : DatasetReaderState) :
    datasetRead impl r (some []) = some (⟨[], [], r.structure_.attrs⟩, []) ∧
    ∃ ds reqs, datasetRead impl r none = some (ds, reqs) ∧
      ds.data_vars.map Prod.fst = r.structure_.data_vars.map Prod.fst ∧
      ds.coords.map Prod.fst = r.structure_.coords.map Prod.fst ∧
      ds.attrs = r.structure_.attrs := by
  constructor
  · have hdv : buildDataVars r r.structure_ (some []) = [] := build_empty_nil _ _
    have hco : buildCoords r r.structure_ (some []) = [] := build_empty_nil _ _
    rw [datasetRead_eq, hdv, hco]
    rfl
  · refine ⟨_, _, datasetRead_eq impl r none, ?_, ?_, rfl⟩
    · rw [List.map_map]
      show (buildDataVars r r.structure_ none).map Prod.fst = _
      exact build_keys_none _ _
    · rw [List.map_map]
      show (buildCoords r r.structure_ none).map Prod.fst = _
      exact build_keys_none _ _

end Tiled
